import Mathlib

/-!
Verification of the easyduration library (src/lib.rs) against its
specification.  The library is a single trait, `EasyDuration`, with one
required method `seconds` returning a `std::time::Duration`, plus default
methods `minutes`, `hours`, `days`, `years` obtained by multiplying the
base duration by fixed constants, implemented for the eight integer types
u8, u16, u32, u64, i8, i16, i32, i64.

Embedding conventions: machine integers are `Nat` (unsigned) or `Int`
(signed) with explicit range hypotheses where the type width matters; a
Rust panic is modelled as `none`, so every operation returns
`Option Duration`.
-/

/-- Nanoseconds per second, the constant used by std Duration arithmetic. -/
def NANOS_PER_SEC : Nat := 1000000000

/-- The largest value of a u64, the seconds counter of std Duration. -/
def u64MAX : Nat := 2 ^ 64 - 1

/-- std::time::Duration: a u64 count of whole seconds plus a u32 count of
nanoseconds below NANOS_PER_SEC.  Fields are Nat; every construction in this
file keeps `secs` at most u64MAX and `nanos` below NANOS_PER_SEC. -/
structure Duration where
  secs : Nat
  nanos : Nat
  deriving DecidableEq

/-- Duration::from_secs: the given number of whole seconds, zero nanoseconds. -/
def Duration.from_secs (s : Nat) : Duration := ⟨s, 0⟩

/-- The total length of a Duration in nanoseconds, as a mathematical integer,
used to state sign properties of results. -/
def Duration.totalNanos (d : Duration) : Int := d.secs * NANOS_PER_SEC + d.nanos

/-- Duration::checked_mul(rhs: u32).  Nanoseconds are multiplied exactly (in
Rust as u64, which cannot overflow since nanos < 10^9 and rhs < 2^32); the
carry is added to the checked product of the seconds counter; `none` when the
seconds counter would exceed u64MAX. -/
def Duration.checked_mul (d : Duration) (rhs : Nat) : Option Duration :=
  let total_nanos := d.nanos * rhs
  let extra_secs := total_nanos / NANOS_PER_SEC
  let nanos := total_nanos % NANOS_PER_SEC
  if d.secs * rhs ≤ u64MAX then
    if d.secs * rhs + extra_secs ≤ u64MAX then
      some ⟨d.secs * rhs + extra_secs, nanos⟩
    else none
  else none

/-- The EasyDuration trait: the one required method.  Rust `Duration * u32`
panics on overflow, so the embedded methods return `Option Duration`, `none`
standing for a panic (in `seconds` itself or in a multiplication). -/
structure EasyDuration (α : Type) where
  seconds : α → Option Duration

/-- Default method: `self.seconds() * 60`. -/
def EasyDuration.minutes {α : Type} (t : EasyDuration α) (n : α) : Option Duration :=
  (t.seconds n).bind fun d => d.checked_mul 60

/-- Default method: `self.seconds() * 60 * 60`. -/
def EasyDuration.hours {α : Type} (t : EasyDuration α) (n : α) : Option Duration :=
  ((t.seconds n).bind fun d => d.checked_mul 60).bind fun d => d.checked_mul 60

/-- Default method: `self.seconds() * 60 * 60 * 24`. -/
def EasyDuration.days {α : Type} (t : EasyDuration α) (n : α) : Option Duration :=
  (((t.seconds n).bind fun d => d.checked_mul 60).bind fun d =>
    d.checked_mul 60).bind fun d => d.checked_mul 24

/-- Default method: `self.days() * 365`. -/
def EasyDuration.years {α : Type} (t : EasyDuration α) (n : α) : Option Duration :=
  (t.days n).bind fun d => d.checked_mul 365

/-- iN::unsigned_abs for the 8- and 16-bit signed impls: the magnitude as the
unsigned type of the same width; never panics, also at the minimum value. -/
def unsigned_abs (n : Int) : Nat := n.natAbs

/-- i32::abs as called by the i32 impl: overflow-checked at i32::MIN (debug
builds panic there; in release builds it wraps to a negative value and the
following u64 conversion fails instead, so the observable result of `seconds`
is a panic either way, which `none` models). -/
def i32_abs (n : Int) : Option Int :=
  if n = -(2 ^ 31) then none else some (if n < 0 then -n else n)

/-- i64::abs, same checked behaviour at i64::MIN. -/
def i64_abs (n : Int) : Option Int :=
  if n = -(2 ^ 63) then none else some (if n < 0 then -n else n)

/-- u64::try_from on a signed value: fails exactly on negatives (every
non-negative i32/i64 value fits in u64). -/
def u64_try_from (n : Int) : Option Nat :=
  if 0 ≤ n then some n.toNat else none

/-- impl EasyDuration for u8: Duration::from_secs(self.into()). -/
def u8Impl : EasyDuration Nat := ⟨fun n => some (Duration.from_secs n)⟩

/-- impl EasyDuration for u16: Duration::from_secs(self.into()). -/
def u16Impl : EasyDuration Nat := ⟨fun n => some (Duration.from_secs n)⟩

/-- impl EasyDuration for u32: Duration::from_secs(self.into()). -/
def u32Impl : EasyDuration Nat := ⟨fun n => some (Duration.from_secs n)⟩

/-- impl EasyDuration for u64: Duration::from_secs(self). -/
def u64Impl : EasyDuration Nat := ⟨fun n => some (Duration.from_secs n)⟩

/-- impl EasyDuration for i8: Duration::from_secs(self.unsigned_abs() as u64). -/
def i8Impl : EasyDuration Int := ⟨fun n => some (Duration.from_secs (unsigned_abs n))⟩

/-- impl EasyDuration for i16: Duration::from_secs(self.unsigned_abs() as u64). -/
def i16Impl : EasyDuration Int := ⟨fun n => some (Duration.from_secs (unsigned_abs n))⟩

/-- impl EasyDuration for i32: let secs = self.abs().try_into().unwrap();
Duration::from_secs(secs).  The unwrap panic is the `none` of u64_try_from. -/
def i32Impl : EasyDuration Int :=
  ⟨fun n => (i32_abs n).bind fun a => (u64_try_from a).map Duration.from_secs⟩

/-- impl EasyDuration for i64: let secs = self.abs().try_into().unwrap();
Duration::from_secs(secs). -/
def i64Impl : EasyDuration Int :=
  ⟨fun n => (i64_abs n).bind fun a => (u64_try_from a).map Duration.from_secs⟩

/-- checked_mul on a whole-second duration: exactly the checked product of the
seconds counter. -/
theorem checked_mul_whole (s k : Nat) :
    Duration.checked_mul ⟨s, 0⟩ k =
      if s * k ≤ u64MAX then some ⟨s * k, 0⟩ else none := by
  by_cases h : s * k ≤ u64MAX <;> simp [Duration.checked_mul, NANOS_PER_SEC, h]

/-- Every impl produces only whole-second durations from `seconds`. -/
def secondsWhole {α : Type} (t : EasyDuration α) : Prop :=
  ∀ n d, t.seconds n = some d → d.nanos = 0

theorem u8_whole : secondsWhole u8Impl := by
  intro n d h
  simp only [u8Impl, Duration.from_secs, Option.some.injEq] at h
  rw [← h]

theorem u16_whole : secondsWhole u16Impl := by
  intro n d h
  simp only [u16Impl, Duration.from_secs, Option.some.injEq] at h
  rw [← h]

theorem u32_whole : secondsWhole u32Impl := by
  intro n d h
  simp only [u32Impl, Duration.from_secs, Option.some.injEq] at h
  rw [← h]

theorem u64_whole : secondsWhole u64Impl := by
  intro n d h
  simp only [u64Impl, Duration.from_secs, Option.some.injEq] at h
  rw [← h]

theorem i8_whole : secondsWhole i8Impl := by
  intro n d h
  simp only [i8Impl, Duration.from_secs, Option.some.injEq] at h
  rw [← h]

theorem i16_whole : secondsWhole i16Impl := by
  intro n d h
  simp only [i16Impl, Duration.from_secs, Option.some.injEq] at h
  rw [← h]

/-- Away from i32::MIN, the i32 impl of `seconds` returns the magnitude of the
input as whole seconds. -/
theorem i32_seconds_eq (n : Int) (h : n ≠ -(2 ^ 31)) :
    i32Impl.seconds n = some ⟨n.natAbs, 0⟩ := by
  have h1 : n ≠ -2147483648 := by simpa using h
  by_cases hn : n < 0
  · have h0 : (0 : Int) ≤ -n := by omega
    simp [i32Impl, i32_abs, u64_try_from, h1, hn, h0, Duration.from_secs,
      Duration.mk.injEq]
    omega
  · have h0 : (0 : Int) ≤ n := by omega
    simp [i32Impl, i32_abs, u64_try_from, h1, hn, h0, Duration.from_secs,
      Duration.mk.injEq]
    omega

/-- At i32::MIN the i32 impl of `seconds` panics. -/
theorem i32_seconds_min : i32Impl.seconds (-(2 ^ 31)) = none := by
  simp [i32Impl, i32_abs]

/-- Away from i64::MIN, the i64 impl of `seconds` returns the magnitude of the
input as whole seconds. -/
theorem i64_seconds_eq (n : Int) (h : n ≠ -(2 ^ 63)) :
    i64Impl.seconds n = some ⟨n.natAbs, 0⟩ := by
  have h1 : n ≠ -9223372036854775808 := by simpa using h
  by_cases hn : n < 0
  · have h0 : (0 : Int) ≤ -n := by omega
    simp [i64Impl, i64_abs, u64_try_from, h1, hn, h0, Duration.from_secs,
      Duration.mk.injEq]
    omega
  · have h0 : (0 : Int) ≤ n := by omega
    simp [i64Impl, i64_abs, u64_try_from, h1, hn, h0, Duration.from_secs,
      Duration.mk.injEq]
    omega

/-- At i64::MIN the i64 impl of `seconds` panics. -/
theorem i64_seconds_min : i64Impl.seconds (-(2 ^ 63)) = none := by
  simp [i64Impl, i64_abs]

theorem i32_whole : secondsWhole i32Impl := by
  intro n d h
  by_cases h1 : n = -(2 ^ 31)
  · rw [h1, i32_seconds_min] at h
    exact absurd h (by simp)
  · rw [i32_seconds_eq n h1] at h
    simp only [Option.some.injEq] at h
    rw [← h]

theorem i64_whole : secondsWhole i64Impl := by
  intro n d h
  by_cases h1 : n = -(2 ^ 63)
  · rw [h1, i64_seconds_min] at h
    exact absurd h (by simp)
  · rw [i64_seconds_eq n h1] at h
    simp only [Option.some.injEq] at h
    rw [← h]

/-- If one scaling of s already overflows, so does any larger scaling. -/
theorem scale_not_le (s a b : Nat) (hab : a ≤ b) (h : ¬ s * a ≤ u64MAX) :
    ¬ s * b ≤ u64MAX :=
  fun hb => h (le_trans (Nat.mul_le_mul (Nat.le_refl s) hab) hb)

/-- minutes on a whole-second base: the checked 60-fold of the base seconds. -/
theorem minutes_eq {α : Type} (t : EasyDuration α) (n : α) (s : Nat)
    (h : t.seconds n = some ⟨s, 0⟩) :
    t.minutes n = if s * 60 ≤ u64MAX then some ⟨s * 60, 0⟩ else none := by
  unfold EasyDuration.minutes
  rw [h]
  exact checked_mul_whole s 60

/-- hours on a whole-second base: the checked 3600-fold of the base seconds. -/
theorem hours_eq {α : Type} (t : EasyDuration α) (n : α) (s : Nat)
    (h : t.seconds n = some ⟨s, 0⟩) :
    t.hours n = if s * 3600 ≤ u64MAX then some ⟨s * 3600, 0⟩ else none := by
  have hs : s * 60 * 60 = s * 3600 := by ring
  unfold EasyDuration.hours
  rw [h]
  show (Duration.checked_mul ⟨s, 0⟩ 60).bind (fun d => d.checked_mul 60) = _
  rw [checked_mul_whole]
  by_cases h1 : s * 60 ≤ u64MAX
  · rw [if_pos h1]
    show Duration.checked_mul ⟨s * 60, 0⟩ 60 = _
    rw [checked_mul_whole, hs]
  · rw [if_neg h1, if_neg (scale_not_le s 60 3600 (by norm_num) h1)]
    rfl

/-- days on a whole-second base: the checked 86400-fold of the base seconds. -/
theorem days_eq {α : Type} (t : EasyDuration α) (n : α) (s : Nat)
    (h : t.seconds n = some ⟨s, 0⟩) :
    t.days n = if s * 86400 ≤ u64MAX then some ⟨s * 86400, 0⟩ else none := by
  have hs : s * 60 * 60 = s * 3600 := by ring
  have hs2 : s * 3600 * 24 = s * 86400 := by ring
  unfold EasyDuration.days
  rw [h]
  show ((Duration.checked_mul ⟨s, 0⟩ 60).bind (fun d => d.checked_mul 60)).bind
    (fun d => d.checked_mul 24) = _
  rw [checked_mul_whole]
  by_cases h1 : s * 60 ≤ u64MAX
  · rw [if_pos h1]
    show (Duration.checked_mul ⟨s * 60, 0⟩ 60).bind (fun d => d.checked_mul 24) = _
    rw [checked_mul_whole, hs]
    by_cases h2 : s * 3600 ≤ u64MAX
    · rw [if_pos h2]
      show Duration.checked_mul ⟨s * 3600, 0⟩ 24 = _
      rw [checked_mul_whole, hs2]
    · rw [if_neg h2, if_neg (scale_not_le s 3600 86400 (by norm_num) h2)]
      rfl
  · rw [if_neg h1, if_neg (scale_not_le s 60 86400 (by norm_num) h1)]
    rfl

/-- years on a whole-second base: the checked 31536000-fold of the base
seconds (86400 times 365). -/
theorem years_eq {α : Type} (t : EasyDuration α) (n : α) (s : Nat)
    (h : t.seconds n = some ⟨s, 0⟩) :
    t.years n = if s * 31536000 ≤ u64MAX then some ⟨s * 31536000, 0⟩ else none := by
  have hs : s * 86400 * 365 = s * 31536000 := by ring
  unfold EasyDuration.years
  rw [days_eq t n s h]
  by_cases h1 : s * 86400 ≤ u64MAX
  · rw [if_pos h1]
    show Duration.checked_mul ⟨s * 86400, 0⟩ 365 = _
    rw [checked_mul_whole, hs]
  · rw [if_neg h1, if_neg (scale_not_le s 86400 31536000 (by norm_num) h1)]
    rfl

/-- Helper: matching a whole-second some against some m gives the fields. -/
theorem some_whole_inj {s : Nat} {m : Duration}
    (h : some (⟨s, 0⟩ : Duration) = some m) : m.secs = s ∧ m.nanos = 0 := by
  simp only [Option.some.injEq] at h
  rw [← h]
  exact ⟨rfl, rfl⟩

/-- Helper: a whole-second producer returns its result in ⟨secs, 0⟩ form. -/
theorem seconds_whole_shape {α : Type} (t : EasyDuration α) (hw : secondsWhole t)
    {n : α} {d : Duration} (h : t.seconds n = some d) :
    t.seconds n = some ⟨d.secs, 0⟩ := by
  have hd := hw n d h
  rw [h]
  cases d
  simp_all

/-- The exact-scaling contract of the four default methods: whenever the
method returns, its result is the base seconds count multiplied by the fixed
constant, with zero nanoseconds. -/
def scalesExactly {α : Type} (t : EasyDuration α) : Prop :=
  ∀ n d, t.seconds n = some d →
    (∀ m, t.minutes n = some m → m.secs = d.secs * 60 ∧ m.nanos = 0) ∧
    (∀ m, t.hours n = some m → m.secs = d.secs * 3600 ∧ m.nanos = 0) ∧
    (∀ m, t.days n = some m → m.secs = d.secs * 86400 ∧ m.nanos = 0) ∧
    (∀ m, t.years n = some m → m.secs = d.secs * 31536000 ∧ m.nanos = 0)

theorem scalesExactly_of_whole {α : Type} (t : EasyDuration α)
    (hw : secondsWhole t) : scalesExactly t := by
  intro n d h
  have h0 := seconds_whole_shape t hw h
  refine ⟨?_, ?_, ?_, ?_⟩
  · intro m hm
    rw [minutes_eq t n d.secs h0] at hm
    split at hm
    · exact some_whole_inj hm
    · exact absurd hm (by simp)
  · intro m hm
    rw [hours_eq t n d.secs h0] at hm
    split at hm
    · exact some_whole_inj hm
    · exact absurd hm (by simp)
  · intro m hm
    rw [days_eq t n d.secs h0] at hm
    split at hm
    · exact some_whole_inj hm
    · exact absurd hm (by simp)
  · intro m hm
    rw [years_eq t n d.secs h0] at hm
    split at hm
    · exact some_whole_inj hm
    · exact absurd hm (by simp)

/-- The overflow contract of the four default methods: given that `seconds`
succeeded, the method panics exactly when the scaled seconds count exceeds
u64MAX. -/
def overflowExact {α : Type} (t : EasyDuration α) : Prop :=
  ∀ n d, t.seconds n = some d →
    (t.minutes n = none ↔ u64MAX < d.secs * 60) ∧
    (t.hours n = none ↔ u64MAX < d.secs * 3600) ∧
    (t.days n = none ↔ u64MAX < d.secs * 86400) ∧
    (t.years n = none ↔ u64MAX < d.secs * 31536000)

theorem overflowExact_of_whole {α : Type} (t : EasyDuration α)
    (hw : secondsWhole t) : overflowExact t := by
  intro n d h
  have h0 := seconds_whole_shape t hw h
  refine ⟨?_, ?_, ?_, ?_⟩
  · rw [minutes_eq t n d.secs h0]
    split <;> simp_all
  · rw [hours_eq t n d.secs h0]
    split <;> simp_all
  · rw [days_eq t n d.secs h0]
    split <;> simp_all
  · rw [years_eq t n d.secs h0]
    split <;> simp_all

/-- The seconds impls of the four unsigned types, in whole-second form. -/
theorem u8_seconds_eq (n : Nat) : u8Impl.seconds n = some ⟨n, 0⟩ := rfl

theorem u16_seconds_eq (n : Nat) : u16Impl.seconds n = some ⟨n, 0⟩ := rfl

theorem u32_seconds_eq (n : Nat) : u32Impl.seconds n = some ⟨n, 0⟩ := rfl

theorem u64_seconds_eq (n : Nat) : u64Impl.seconds n = some ⟨n, 0⟩ := rfl

/-- The seconds impls of the two narrow signed types, in whole-second form. -/
theorem i8_seconds_eq (n : Int) : i8Impl.seconds n = some ⟨n.natAbs, 0⟩ := rfl

theorem i16_seconds_eq (n : Int) : i16Impl.seconds n = some ⟨n.natAbs, 0⟩ := rfl

/-- Every result of every method of an impl is a whole number of seconds. -/
def wholeOutputs {α : Type} (t : EasyDuration α) : Prop :=
  ∀ n, (∀ d, t.seconds n = some d → d.nanos = 0) ∧
    (∀ d, t.minutes n = some d → d.nanos = 0) ∧
    (∀ d, t.hours n = some d → d.nanos = 0) ∧
    (∀ d, t.days n = some d → d.nanos = 0) ∧
    (∀ d, t.years n = some d → d.nanos = 0)

theorem wholeOutputs_of_whole {α : Type} (t : EasyDuration α)
    (hw : secondsWhole t) : wholeOutputs t := by
  intro n
  refine ⟨fun d h => hw n d h, ?_, ?_, ?_, ?_⟩
  · intro m hm
    cases hsec : t.seconds n with
    | none =>
        unfold EasyDuration.minutes at hm
        rw [hsec] at hm
        exact absurd hm (by simp)
    | some d =>
        rw [minutes_eq t n d.secs (seconds_whole_shape t hw hsec)] at hm
        split at hm
        · exact (some_whole_inj hm).2
        · exact absurd hm (by simp)
  · intro m hm
    cases hsec : t.seconds n with
    | none =>
        unfold EasyDuration.hours at hm
        rw [hsec] at hm
        exact absurd hm (by simp)
    | some d =>
        rw [hours_eq t n d.secs (seconds_whole_shape t hw hsec)] at hm
        split at hm
        · exact (some_whole_inj hm).2
        · exact absurd hm (by simp)
  · intro m hm
    cases hsec : t.seconds n with
    | none =>
        unfold EasyDuration.days at hm
        rw [hsec] at hm
        exact absurd hm (by simp)
    | some d =>
        rw [days_eq t n d.secs (seconds_whole_shape t hw hsec)] at hm
        split at hm
        · exact (some_whole_inj hm).2
        · exact absurd hm (by simp)
  · intro m hm
    cases hsec : t.seconds n with
    | none =>
        unfold EasyDuration.years EasyDuration.days at hm
        rw [hsec] at hm
        exact absurd hm (by simp)
    | some d =>
        rw [years_eq t n d.secs (seconds_whole_shape t hw hsec)] at hm
        split at hm
        · exact (some_whole_inj hm).2
        · exact absurd hm (by simp)

/-- A Duration is never a negative span: its total nanosecond length is a
non-negative integer. -/
theorem totalNanos_nonneg (d : Duration) : 0 ≤ d.totalNanos := by
  unfold Duration.totalNanos NANOS_PER_SEC
  positivity

/-- Every result of every method of an impl is a non-negative span. -/
def nonnegOutputs {α : Type} (t : EasyDuration α) : Prop :=
  ∀ n, (∀ d, t.seconds n = some d → 0 ≤ d.totalNanos) ∧
    (∀ d, t.minutes n = some d → 0 ≤ d.totalNanos) ∧
    (∀ d, t.hours n = some d → 0 ≤ d.totalNanos) ∧
    (∀ d, t.days n = some d → 0 ≤ d.totalNanos) ∧
    (∀ d, t.years n = some d → 0 ≤ d.totalNanos)

theorem nonnegOutputs_all {α : Type} (t : EasyDuration α) : nonnegOutputs t :=
  fun _ => ⟨fun d _ => totalNanos_nonneg d, fun d _ => totalNanos_nonneg d,
    fun d _ => totalNanos_nonneg d, fun d _ => totalNanos_nonneg d,
    fun d _ => totalNanos_nonneg d⟩

/-- Two calls of the same method on the same input give identical results. -/
def deterministicOn {α : Type} (t : EasyDuration α) : Prop :=
  ∀ n, t.seconds n = t.seconds n ∧ t.minutes n = t.minutes n ∧
    t.hours n = t.hours n ∧ t.days n = t.days n ∧ t.years n = t.years n

theorem deterministicOn_all {α : Type} (t : EasyDuration α) : deterministicOn t :=
  fun _ => ⟨rfl, rfl, rfl, rfl, rfl⟩

/-- C1: for every one of the eight numeric variants and every non-negative
representable input n, `seconds(n)` returns a duration of exactly n whole
seconds with zero sub-second component. -/
theorem C1_seconds_exact :
    (∀ n : Nat, n ≤ 2 ^ 8 - 1 → u8Impl.seconds n = some ⟨n, 0⟩) ∧
    (∀ n : Nat, n ≤ 2 ^ 16 - 1 → u16Impl.seconds n = some ⟨n, 0⟩) ∧
    (∀ n : Nat, n ≤ 2 ^ 32 - 1 → u32Impl.seconds n = some ⟨n, 0⟩) ∧
    (∀ n : Nat, n ≤ 2 ^ 64 - 1 → u64Impl.seconds n = some ⟨n, 0⟩) ∧
    (∀ n : Int, 0 ≤ n → n ≤ 2 ^ 7 - 1 → i8Impl.seconds n = some ⟨n.toNat, 0⟩) ∧
    (∀ n : Int, 0 ≤ n → n ≤ 2 ^ 15 - 1 → i16Impl.seconds n = some ⟨n.toNat, 0⟩) ∧
    (∀ n : Int, 0 ≤ n → n ≤ 2 ^ 31 - 1 → i32Impl.seconds n = some ⟨n.toNat, 0⟩) ∧
    (∀ n : Int, 0 ≤ n → n ≤ 2 ^ 63 - 1 → i64Impl.seconds n = some ⟨n.toNat, 0⟩) := by
  refine ⟨fun n _ => u8_seconds_eq n, fun n _ => u16_seconds_eq n,
    fun n _ => u32_seconds_eq n, fun n _ => u64_seconds_eq n, ?_, ?_, ?_, ?_⟩
  · intro n h0 h1
    rw [i8_seconds_eq]
    simp only [Option.some.injEq, Duration.mk.injEq, and_true]
    omega
  · intro n h0 h1
    rw [i16_seconds_eq]
    simp only [Option.some.injEq, Duration.mk.injEq, and_true]
    omega
  · intro n h0 h1
    rw [i32_seconds_eq n (by omega)]
    simp only [Option.some.injEq, Duration.mk.injEq, and_true]
    omega
  · intro n h0 h1
    rw [i64_seconds_eq n (by omega)]
    simp only [Option.some.injEq, Duration.mk.injEq, and_true]
    omega

/-- Witness for C1 at concrete inputs of each variant. -/
theorem C1_witness :
    u8Impl.seconds 3 = some ⟨3, 0⟩ ∧ u16Impl.seconds 300 = some ⟨300, 0⟩ ∧
    u32Impl.seconds 70000 = some ⟨70000, 0⟩ ∧
    u64Impl.seconds 5000000000 = some ⟨5000000000, 0⟩ ∧
    i8Impl.seconds 5 = some ⟨(5 : Int).toNat, 0⟩ ∧
    i16Impl.seconds 600 = some ⟨(600 : Int).toNat, 0⟩ ∧
    i32Impl.seconds 100000 = some ⟨(100000 : Int).toNat, 0⟩ ∧
    i64Impl.seconds 7 = some ⟨(7 : Int).toNat, 0⟩ :=
  ⟨C1_seconds_exact.1 3 (by decide), C1_seconds_exact.2.1 300 (by decide),
   C1_seconds_exact.2.2.1 70000 (by decide),
   C1_seconds_exact.2.2.2.1 5000000000 (by decide),
   C1_seconds_exact.2.2.2.2.1 5 (by decide) (by decide),
   C1_seconds_exact.2.2.2.2.2.1 600 (by decide) (by decide),
   C1_seconds_exact.2.2.2.2.2.2.1 100000 (by decide) (by decide),
   C1_seconds_exact.2.2.2.2.2.2.2 7 (by decide) (by decide)⟩

/-- C2: the claim requires `seconds` at i32::MIN and i64::MIN to return the
true magnitude without panic; the code instead panics at both inputs (the
same-width `abs` overflows, and the release-mode wrap makes the following u64
conversion unwrap fail), so this theorem evaluates the code at the two
failing inputs. -/
theorem C2_min_panics :
    i32Impl.seconds (-(2 ^ 31)) = none ∧ i64Impl.seconds (-(2 ^ 63)) = none :=
  ⟨i32_seconds_min, i64_seconds_min⟩

/-- C3: for every variant, whenever the derived methods return, `minutes` is
`seconds` scaled by 60, `hours` by 3600, `days` by 86400 and `years` by
31536000, exactly and with zero nanoseconds. -/
theorem C3_scaling :
    scalesExactly u8Impl ∧ scalesExactly u16Impl ∧ scalesExactly u32Impl ∧
    scalesExactly u64Impl ∧ scalesExactly i8Impl ∧ scalesExactly i16Impl ∧
    scalesExactly i32Impl ∧ scalesExactly i64Impl :=
  ⟨scalesExactly_of_whole _ u8_whole, scalesExactly_of_whole _ u16_whole,
   scalesExactly_of_whole _ u32_whole, scalesExactly_of_whole _ u64_whole,
   scalesExactly_of_whole _ i8_whole, scalesExactly_of_whole _ i16_whole,
   scalesExactly_of_whole _ i32_whole, scalesExactly_of_whole _ i64_whole⟩

/-- Witness for C3: 2 minutes on the u8 variant is 2 times 60 seconds. -/
theorem C3_witness :
    (Duration.mk 120 0).secs = (Duration.mk 2 0).secs * 60 ∧
    (Duration.mk 120 0).nanos = 0 :=
  (C3_scaling.1 2 ⟨2, 0⟩ rfl).1 ⟨120, 0⟩ (by decide)

/-- C4: for every signed variant and every input n whose negation is also
representable, `seconds(n)` equals `seconds(-n)`: only the magnitude of the
input matters. -/
theorem C4_sign_independent :
    (∀ n : Int, -(2 ^ 7) ≤ n → n ≤ 2 ^ 7 - 1 → -(2 ^ 7) ≤ -n → -n ≤ 2 ^ 7 - 1 →
      i8Impl.seconds n = i8Impl.seconds (-n)) ∧
    (∀ n : Int, -(2 ^ 15) ≤ n → n ≤ 2 ^ 15 - 1 → -(2 ^ 15) ≤ -n →
      -n ≤ 2 ^ 15 - 1 → i16Impl.seconds n = i16Impl.seconds (-n)) ∧
    (∀ n : Int, -(2 ^ 31) ≤ n → n ≤ 2 ^ 31 - 1 → -(2 ^ 31) ≤ -n →
      -n ≤ 2 ^ 31 - 1 → i32Impl.seconds n = i32Impl.seconds (-n)) ∧
    (∀ n : Int, -(2 ^ 63) ≤ n → n ≤ 2 ^ 63 - 1 → -(2 ^ 63) ≤ -n →
      -n ≤ 2 ^ 63 - 1 → i64Impl.seconds n = i64Impl.seconds (-n)) := by
  refine ⟨?_, ?_, ?_, ?_⟩
  · intro n _ _ _ _
    rw [i8_seconds_eq, i8_seconds_eq, Int.natAbs_neg]
  · intro n _ _ _ _
    rw [i16_seconds_eq, i16_seconds_eq, Int.natAbs_neg]
  · intro n h1 h2 h3 h4
    rw [i32_seconds_eq n (by omega), i32_seconds_eq (-n) (by omega),
      Int.natAbs_neg]
  · intro n h1 h2 h3 h4
    rw [i64_seconds_eq n (by omega), i64_seconds_eq (-n) (by omega),
      Int.natAbs_neg]

/-- Witness for C4 at concrete inputs of each signed variant. -/
theorem C4_witness :
    i8Impl.seconds 5 = i8Impl.seconds (-5) ∧
    i16Impl.seconds 1000 = i16Impl.seconds (-1000) ∧
    i32Impl.seconds (-70000) = i32Impl.seconds 70000 ∧
    i64Impl.seconds (-3) = i64Impl.seconds 3 :=
  ⟨C4_sign_independent.1 5 (by decide) (by decide) (by decide) (by decide),
   C4_sign_independent.2.1 1000 (by decide) (by decide) (by decide) (by decide),
   C4_sign_independent.2.2.1 (-70000) (by decide) (by decide) (by decide)
     (by decide),
   C4_sign_independent.2.2.2 (-3) (by decide) (by decide) (by decide)
     (by decide)⟩

/-- C5 counterexample: the claim says an input whose scaled seconds count is
representable does not fail, but for the i32 variant at i32::MIN the scaled
count for minutes (2^31 times 60) fits the u64 seconds counter and `minutes`
still panics, because `seconds` itself panics there. -/
theorem C5_counterexample :
    2 ^ 31 * 60 ≤ u64MAX ∧ i32Impl.minutes (-(2 ^ 31)) = none := by
  refine ⟨by decide, ?_⟩
  unfold EasyDuration.minutes
  rw [i32_seconds_min]
  rfl

/-- C5 (amended): for every variant, on any input where `seconds` itself
succeeds, a derived method panics exactly when the scaled seconds count
exceeds the u64 seconds counter maximum, and returns a duration otherwise:
no wrapped or partial result is ever produced. -/
theorem C5_overflow_exact :
    overflowExact u8Impl ∧ overflowExact u16Impl ∧ overflowExact u32Impl ∧
    overflowExact u64Impl ∧ overflowExact i8Impl ∧ overflowExact i16Impl ∧
    overflowExact i32Impl ∧ overflowExact i64Impl :=
  ⟨overflowExact_of_whole _ u8_whole, overflowExact_of_whole _ u16_whole,
   overflowExact_of_whole _ u32_whole, overflowExact_of_whole _ u64_whole,
   overflowExact_of_whole _ i8_whole, overflowExact_of_whole _ i16_whole,
   overflowExact_of_whole _ i32_whole, overflowExact_of_whole _ i64_whole⟩

/-- Witness for C5: on the u64 variant, years of 2^63 overflows the seconds
counter and panics. -/
theorem C5_witness : u64Impl.years (2 ^ 63) = none :=
  ((C5_overflow_exact.2.2.2.1 (2 ^ 63) ⟨2 ^ 63, 0⟩ rfl).2.2.2).mpr (by decide)

/-- C6: the concrete scenarios of the spec hold on every variant:
1.seconds() is 1 second, 12.minutes() is 720 seconds, 5.hours() is 18000
seconds, 7.days() is 604800 seconds, 2.years() is 63072000 seconds. -/
theorem C6_examples :
    (u8Impl.seconds 1 = some ⟨1, 0⟩ ∧ u8Impl.minutes 12 = some ⟨720, 0⟩ ∧
      u8Impl.hours 5 = some ⟨18000, 0⟩ ∧ u8Impl.days 7 = some ⟨604800, 0⟩ ∧
      u8Impl.years 2 = some ⟨63072000, 0⟩) ∧
    (u16Impl.seconds 1 = some ⟨1, 0⟩ ∧ u16Impl.minutes 12 = some ⟨720, 0⟩ ∧
      u16Impl.hours 5 = some ⟨18000, 0⟩ ∧ u16Impl.days 7 = some ⟨604800, 0⟩ ∧
      u16Impl.years 2 = some ⟨63072000, 0⟩) ∧
    (u32Impl.seconds 1 = some ⟨1, 0⟩ ∧ u32Impl.minutes 12 = some ⟨720, 0⟩ ∧
      u32Impl.hours 5 = some ⟨18000, 0⟩ ∧ u32Impl.days 7 = some ⟨604800, 0⟩ ∧
      u32Impl.years 2 = some ⟨63072000, 0⟩) ∧
    (u64Impl.seconds 1 = some ⟨1, 0⟩ ∧ u64Impl.minutes 12 = some ⟨720, 0⟩ ∧
      u64Impl.hours 5 = some ⟨18000, 0⟩ ∧ u64Impl.days 7 = some ⟨604800, 0⟩ ∧
      u64Impl.years 2 = some ⟨63072000, 0⟩) ∧
    (i8Impl.seconds 1 = some ⟨1, 0⟩ ∧ i8Impl.minutes 12 = some ⟨720, 0⟩ ∧
      i8Impl.hours 5 = some ⟨18000, 0⟩ ∧ i8Impl.days 7 = some ⟨604800, 0⟩ ∧
      i8Impl.years 2 = some ⟨63072000, 0⟩) ∧
    (i16Impl.seconds 1 = some ⟨1, 0⟩ ∧ i16Impl.minutes 12 = some ⟨720, 0⟩ ∧
      i16Impl.hours 5 = some ⟨18000, 0⟩ ∧ i16Impl.days 7 = some ⟨604800, 0⟩ ∧
      i16Impl.years 2 = some ⟨63072000, 0⟩) ∧
    (i32Impl.seconds 1 = some ⟨1, 0⟩ ∧ i32Impl.minutes 12 = some ⟨720, 0⟩ ∧
      i32Impl.hours 5 = some ⟨18000, 0⟩ ∧ i32Impl.days 7 = some ⟨604800, 0⟩ ∧
      i32Impl.years 2 = some ⟨63072000, 0⟩) ∧
    (i64Impl.seconds 1 = some ⟨1, 0⟩ ∧ i64Impl.minutes 12 = some ⟨720, 0⟩ ∧
      i64Impl.hours 5 = some ⟨18000, 0⟩ ∧ i64Impl.days 7 = some ⟨604800, 0⟩ ∧
      i64Impl.years 2 = some ⟨63072000, 0⟩) := by
  decide

/-- C7: every duration any method returns is a non-negative span, and a
negative signed input gives its magnitude: (-1).seconds() on the i8 variant
is 1 second. -/
theorem C7_nonneg :
    nonnegOutputs u8Impl ∧ nonnegOutputs u16Impl ∧ nonnegOutputs u32Impl ∧
    nonnegOutputs u64Impl ∧ nonnegOutputs i8Impl ∧ nonnegOutputs i16Impl ∧
    nonnegOutputs i32Impl ∧ nonnegOutputs i64Impl ∧
    i8Impl.seconds (-1) = some ⟨1, 0⟩ :=
  ⟨nonnegOutputs_all _, nonnegOutputs_all _, nonnegOutputs_all _,
   nonnegOutputs_all _, nonnegOutputs_all _, nonnegOutputs_all _,
   nonnegOutputs_all _, nonnegOutputs_all _, by decide⟩

/-- Witness for C7: the duration returned for the i8 input -1 is a
non-negative span. -/
theorem C7_witness : 0 ≤ (Duration.mk 1 0).totalNanos :=
  (C7_nonneg.2.2.2.2.1 (-1)).1 ⟨1, 0⟩ (by decide)

/-- C8: every method of every variant is deterministic: two calls of the same
method on the same input give identical results. -/
theorem C8_deterministic :
    deterministicOn u8Impl ∧ deterministicOn u16Impl ∧
    deterministicOn u32Impl ∧ deterministicOn u64Impl ∧
    deterministicOn i8Impl ∧ deterministicOn i16Impl ∧
    deterministicOn i32Impl ∧ deterministicOn i64Impl :=
  ⟨deterministicOn_all _, deterministicOn_all _, deterministicOn_all _,
   deterministicOn_all _, deterministicOn_all _, deterministicOn_all _,
   deterministicOn_all _, deterministicOn_all _⟩

/-- C9: for the four unsigned variants and the 8- and 16-bit signed variants,
`seconds` is total: it returns a duration for every representable input,
including i8::MIN and i16::MIN. -/
theorem C9_narrow_total :
    (∀ n : Nat, n ≤ 2 ^ 8 - 1 → (u8Impl.seconds n).isSome = true) ∧
    (∀ n : Nat, n ≤ 2 ^ 16 - 1 → (u16Impl.seconds n).isSome = true) ∧
    (∀ n : Nat, n ≤ 2 ^ 32 - 1 → (u32Impl.seconds n).isSome = true) ∧
    (∀ n : Nat, n ≤ 2 ^ 64 - 1 → (u64Impl.seconds n).isSome = true) ∧
    (∀ n : Int, -(2 ^ 7) ≤ n → n ≤ 2 ^ 7 - 1 →
      (i8Impl.seconds n).isSome = true) ∧
    (∀ n : Int, -(2 ^ 15) ≤ n → n ≤ 2 ^ 15 - 1 →
      (i16Impl.seconds n).isSome = true) :=
  ⟨fun _ _ => rfl, fun _ _ => rfl, fun _ _ => rfl, fun _ _ => rfl,
   fun _ _ _ => rfl, fun _ _ _ => rfl⟩

/-- Witness for C9, including the extreme negative values of i8 and i16. -/
theorem C9_witness :
    (u8Impl.seconds 255).isSome = true ∧
    (i8Impl.seconds (-128)).isSome = true ∧
    (i16Impl.seconds (-32768)).isSome = true :=
  ⟨C9_narrow_total.1 255 (by decide),
   C9_narrow_total.2.2.2.2.1 (-128) (by decide) (by decide),
   C9_narrow_total.2.2.2.2.2 (-32768) (by decide) (by decide)⟩

/-- C10: on every variant, every method that returns a duration returns a
whole number of seconds: the nanosecond component is always zero. -/
theorem C10_whole_seconds :
    wholeOutputs u8Impl ∧ wholeOutputs u16Impl ∧ wholeOutputs u32Impl ∧
    wholeOutputs u64Impl ∧ wholeOutputs i8Impl ∧ wholeOutputs i16Impl ∧
    wholeOutputs i32Impl ∧ wholeOutputs i64Impl :=
  ⟨wholeOutputs_of_whole _ u8_whole, wholeOutputs_of_whole _ u16_whole,
   wholeOutputs_of_whole _ u32_whole, wholeOutputs_of_whole _ u64_whole,
   wholeOutputs_of_whole _ i8_whole, wholeOutputs_of_whole _ i16_whole,
   wholeOutputs_of_whole _ i32_whole, wholeOutputs_of_whole _ i64_whole⟩

/-- Witness for C10: 5 minutes on the u8 variant has zero nanoseconds. -/
theorem C10_witness : (Duration.mk 300 0).nanos = 0 :=
  (C10_whole_seconds.1 5).2.1 ⟨300, 0⟩ (by decide)
